import Mathlib

/-!
Shallow embedding of the MQTT connection lifecycle wrapper
(src/src/mqtt_connect.c): the FreeRTOS event-group latch, the MQTT event
callback, and the blocking start / stop operations, together with theorems
settling the specification claims about them.

Modelling conventions:
- An event group is its bit word, a Nat.  The global s_mqtt_evtgrp_hdl is
  an Option Nat (none models the NULL handle).
- esp_err_t values and the mqtt error-type enum values are Int, with the
  concrete numeric values from the ESP-IDF headers (ESP_OK = 0,
  ESP_ERR_INVALID_STATE = 0x103, ESP_ERR_NOT_SUPPORTED = 0x106,
  MQTT_ERROR_TYPE_NONE = 0, MQTT_ERROR_TYPE_CONNECTION_REFUSED = 2).
- External calls whose results the code merely branches on (event-group
  creation, client init, event registration, client start, the stop-side
  teardown calls) are supplied by an environment record.
- The indefinite (portMAX_DELAY) latch wait is modelled as an Option
  result: none means the call never returns (blocks forever).
-/

/-- The MQTT event ids dispatched to the callback (esp_mqtt_event_id_t);
the catch-all constructor stands for every id handled by the default case. -/
inductive MqttEventId where
  | connected
  | disconnected
  | subscribed
  | unsubscribed
  | published
  | data
  | error
  | other
deriving DecidableEq, Fintype

/-- BIT0, the MQTT_EVTGRP_CONNECTED_BIT event-group bit. -/
def MQTT_EVTGRP_CONNECTED_BIT : Nat := 1

/-- BIT1, the MQTT_EVTGRP_DISCONNECTED_BIT event-group bit. -/
def MQTT_EVTGRP_DISCONNECTED_BIT : Nat := 2

/-- BIT2, the MQTT_EVTGRP_ERROR_BIT event-group bit. -/
def MQTT_EVTGRP_ERROR_BIT : Nat := 4

/-- ESP_OK, the esp_err_t success value (0). -/
def ESP_OK : Int := 0

/-- ESP_ERR_INVALID_STATE (0x103). -/
def ESP_ERR_INVALID_STATE : Int := 0x103

/-- ESP_ERR_NOT_SUPPORTED (0x106). -/
def ESP_ERR_NOT_SUPPORTED : Int := 0x106

/-- MQTT_ERROR_TYPE_NONE from the esp_mqtt_error_type_t enum; its numeric
value is 0, the same as ESP_OK. -/
def MQTT_ERROR_TYPE_NONE : Int := 0

/-- MQTT_ERROR_TYPE_CONNECTION_REFUSED from esp_mqtt_error_type_t (value 2). -/
def MQTT_ERROR_TYPE_CONNECTION_REFUSED : Int := 2

/-- xEventGroupSetBits on the bit word: sets the given bits. -/
def xEventGroupSetBits (grp bits : Nat) : Nat := grp ||| bits

/-- xEventGroupClearBits on the bit word: clears the given bits
(subtracting the common bits clears exactly the requested ones). -/
def xEventGroupClearBits (grp bits : Nat) : Nat := grp - (grp &&& bits)

/-- xEventGroupWaitBits with an infinite timeout (portMAX_DELAY), modelled
as a pure function of the bit word at the moment the wait condition is
satisfied.  Returns some (returnedBits, newGrp) when the wait condition
holds (all of waitBits when waitForAll, else at least one of waitBits);
returns none when the condition never holds, i.e. the call blocks forever.
The returned bits are the word before any clear-on-exit, as documented by
FreeRTOS and relied on by the source comment at the call site. -/
def xEventGroupWaitBits (grp waitBits : Nat) (clearOnExit waitForAll : Bool) :
    Option (Nat × Nat) :=
  if (if waitForAll then grp &&& waitBits = waitBits else grp &&& waitBits ≠ 0) then
    some (grp, if clearOnExit then xEventGroupClearBits grp waitBits else grp)
  else
    none

/-- The latch effect of mqtt_event_handler on the event-group bit word:
MQTT_EVENT_CONNECTED sets the connected bit then clears the disconnected
bit, MQTT_EVENT_DISCONNECTED sets the disconnected bit then clears the
connected bit, MQTT_EVENT_ERROR sets the error bit, every other event only
logs and leaves the word unchanged. -/
def mqtt_event_handler (grp : Nat) (e : MqttEventId) : Nat :=
  match e with
  | .connected =>
      xEventGroupClearBits (xEventGroupSetBits grp MQTT_EVTGRP_CONNECTED_BIT)
        MQTT_EVTGRP_DISCONNECTED_BIT
  | .disconnected =>
      xEventGroupClearBits (xEventGroupSetBits grp MQTT_EVTGRP_DISCONNECTED_BIT)
        MQTT_EVTGRP_CONNECTED_BIT
  | .error => xEventGroupSetBits grp MQTT_EVTGRP_ERROR_BIT
  | _ => grp

/-- The process-wide mutable state of mqtt_connect.c: the event-group
handle (none models NULL, some grp models a live group holding the word
grp), the volatile mqtt_connected flag, and the nullness of the client
handle (true models a non-NULL esp_mqtt_client_handle_t). -/
structure ConnState where
  s_mqtt_evtgrp_hdl : Option Nat
  mqtt_connected : Bool
  mqtt_client_hdl : Bool
deriving DecidableEq

/-- The event callback as it acts on the whole process state: it only
calls xEventGroupSetBits and xEventGroupClearBits on s_mqtt_evtgrp_hdl
and touches nothing else. -/
def mqtt_event_handler_step (st : ConnState) (e : MqttEventId) : ConnState :=
  { st with s_mqtt_evtgrp_hdl := st.s_mqtt_evtgrp_hdl.map (fun g => mqtt_event_handler g e) }

/-- Which branch of the post-wait if chain in mqtt_start executed. -/
inductive StartBranch where
  | connectedBranch
  | disconnectedBranch
  | errorBranch
  | fallthroughBranch
deriving DecidableEq

/-- The post-wait if chain of mqtt_start, as a function of the bits the
wait returned: result value, value written to mqtt_connected, and which
branch ran.  The checks happen in the fixed source order connected,
disconnected, error, with a fallthrough else. -/
def mqtt_start_outcome (bits : Nat) : Int × Bool × StartBranch :=
  if bits &&& MQTT_EVTGRP_CONNECTED_BIT ≠ 0 then
    (ESP_OK, true, .connectedBranch)
  else if bits &&& MQTT_EVTGRP_DISCONNECTED_BIT ≠ 0 then
    (MQTT_ERROR_TYPE_CONNECTION_REFUSED, false, .disconnectedBranch)
  else if bits &&& MQTT_EVTGRP_ERROR_BIT ≠ 0 then
    (MQTT_ERROR_TYPE_NONE, false, .errorBranch)
  else
    (ESP_ERR_NOT_SUPPORTED, false, .fallthroughBranch)

/-- Environment of one mqtt_start call: whether xEventGroupCreate and
esp_mqtt_client_init succeed, the esp_err_t results of
esp_mqtt_client_register_event and esp_mqtt_client_start, and the list of
MQTT events the event loop delivers to the callback before the latch wait
is observed. -/
structure StartEnv where
  evtgrp_create_ok : Bool
  client_init_ok : Bool
  register_event_ret : Int
  client_start_ret : Int
  events : List MqttEventId
deriving DecidableEq

/-- mqtt_start: creates the event group (fail: handle NULL, return
ESP_ERR_INVALID_STATE), initializes the client (fail: handle NULL, return
ESP_ERR_INVALID_STATE), registers the callback and starts the client
(failures propagated), lets the delivered events act on the fresh latch,
then blocks on xEventGroupWaitBits for any of the three outcome bits with
no clear-on-exit and no timeout, and finally runs the post-wait if chain.
Returns none when the wait never unblocks. -/
def mqtt_start (env : StartEnv) (st : ConnState) : Option (Int × ConnState) :=
  if ¬ env.evtgrp_create_ok then
    some (ESP_ERR_INVALID_STATE, { st with s_mqtt_evtgrp_hdl := none })
  else
    let st1 : ConnState := { st with s_mqtt_evtgrp_hdl := some 0 }
    if ¬ env.client_init_ok then
      some (ESP_ERR_INVALID_STATE, { st1 with mqtt_client_hdl := false })
    else
      let st2 : ConnState := { st1 with mqtt_client_hdl := true }
      if env.register_event_ret ≠ ESP_OK then
        some (env.register_event_ret, st2)
      else if env.client_start_ret ≠ ESP_OK then
        some (env.client_start_ret, st2)
      else
        let latch := env.events.foldl mqtt_event_handler 0
        let st3 : ConnState := { st2 with s_mqtt_evtgrp_hdl := some latch }
        match xEventGroupWaitBits latch
            (MQTT_EVTGRP_CONNECTED_BIT ||| MQTT_EVTGRP_DISCONNECTED_BIT |||
              MQTT_EVTGRP_ERROR_BIT) false false with
        | none => none
        | some (bits, latch2) =>
            let o := mqtt_start_outcome bits
            some (o.1, { st3 with
              s_mqtt_evtgrp_hdl := some latch2
              mqtt_connected := o.2.1 })

/-- Environment of one mqtt_stop call: the esp_err_t results of
esp_mqtt_client_disconnect, esp_mqtt_client_stop and
esp_mqtt_client_unregister_event. -/
structure StopEnv where
  disconnect_ret : Int
  stop_ret : Int
  unregister_event_ret : Int
deriving DecidableEq

/-- mqtt_stop: disconnect, stop, unregister in that order, each failure
returned immediately (ESP_RETURN_ON_ERROR) leaving the state untouched;
then destroy the client and NULL its handle, free the event group and
NULL its handle, and return ESP_OK. -/
def mqtt_stop (env : StopEnv) (st : ConnState) : Int × ConnState :=
  if env.disconnect_ret ≠ ESP_OK then (env.disconnect_ret, st)
  else if env.stop_ret ≠ ESP_OK then (env.stop_ret, st)
  else if env.unregister_event_ret ≠ ESP_OK then (env.unregister_event_ret, st)
  else (ESP_OK, { st with mqtt_client_hdl := false, s_mqtt_evtgrp_hdl := none })

/-- Whether an event is of the connect/disconnect class. -/
def isConnDiscEvent (e : MqttEventId) : Bool :=
  match e with
  | .connected => true
  | .disconnected => true
  | _ => false

/-- Accumulator step remembering the most recent connect/disconnect-class
event of a sequence. -/
def lastConnDiscStep (acc : Option MqttEventId) (e : MqttEventId) : Option MqttEventId :=
  if isConnDiscEvent e then some e else acc

/-- The last connect/disconnect-class event of a delivered sequence, if any. -/
def lastConnDisc (l : List MqttEventId) : Option MqttEventId :=
  l.foldl lastConnDiscStep none

/-- Consistency relation of the last-event accumulator with the low two
latch bits: the connected/disconnected pair of bits mirrors the most
recent connect/disconnect-class event (both clear when there was none). -/
def latchMatches (acc : Option MqttEventId) (b : Nat) : Bool :=
  match acc with
  | some .connected => b &&& 3 == 1
  | some .disconnected => b &&& 3 == 2
  | _ => b &&& 3 == 0

lemma mqtt_event_handler_lt_8 :
    ∀ b < 8, ∀ e : MqttEventId, mqtt_event_handler b e < 8 := by decide

lemma foldl_mqtt_event_handler_lt_8 (l : List MqttEventId) :
    ∀ b < 8, l.foldl mqtt_event_handler b < 8 := by
  induction l with
  | nil => intro b hb; exact hb
  | cons e rest ih =>
      intro b hb
      exact ih _ (mqtt_event_handler_lt_8 b hb e)

lemma latchMatches_step :
    ∀ (acc : Option MqttEventId) (e : MqttEventId), ∀ b < 8,
      latchMatches acc b = true →
      latchMatches (lastConnDiscStep acc e) (mqtt_event_handler b e) = true := by
  decide

lemma foldl_latchMatches (l : List MqttEventId) :
    ∀ (acc : Option MqttEventId), ∀ b < 8, latchMatches acc b = true →
      latchMatches (l.foldl lastConnDiscStep acc) (l.foldl mqtt_event_handler b) = true := by
  induction l with
  | nil => intro acc b _ h; exact h
  | cons e rest ih =>
      intro acc b hb h
      exact ih _ _ (mqtt_event_handler_lt_8 b hb e) (latchMatches_step acc e b hb h)

lemma lastConnDisc_latchMatches (l : List MqttEventId) :
    latchMatches (lastConnDisc l) (l.foldl mqtt_event_handler 0) = true :=
  foldl_latchMatches l none 0 (by decide) (by decide)

lemma xEventGroupWaitBits_ready (grp waitBits : Nat) (h : grp &&& waitBits ≠ 0) :
    xEventGroupWaitBits grp waitBits false false = some (grp, grp) := by
  simp [xEventGroupWaitBits, h]

lemma land_one_ready : ∀ b < 8, b &&& MQTT_EVTGRP_CONNECTED_BIT = MQTT_EVTGRP_CONNECTED_BIT →
    b &&& (MQTT_EVTGRP_CONNECTED_BIT ||| MQTT_EVTGRP_DISCONNECTED_BIT |||
      MQTT_EVTGRP_ERROR_BIT) ≠ 0 := by decide

/-- C1: the post-wait if chain of mqtt_start checks the returned bits in
the fixed priority order connected, disconnected, error, and the first
satisfied bit decides the outcome; in particular whenever the connected
bit is among the returned bits the call returns ESP_OK and writes true to
mqtt_connected, regardless of the other bits. -/
theorem mqtt_start_outcome_fixed_priority (bits : Nat) :
    (bits &&& MQTT_EVTGRP_CONNECTED_BIT ≠ 0 →
      mqtt_start_outcome bits = (ESP_OK, true, .connectedBranch)) ∧
    (bits &&& MQTT_EVTGRP_CONNECTED_BIT = 0 →
      bits &&& MQTT_EVTGRP_DISCONNECTED_BIT ≠ 0 →
      mqtt_start_outcome bits =
        (MQTT_ERROR_TYPE_CONNECTION_REFUSED, false, .disconnectedBranch)) ∧
    (bits &&& MQTT_EVTGRP_CONNECTED_BIT = 0 →
      bits &&& MQTT_EVTGRP_DISCONNECTED_BIT = 0 →
      bits &&& MQTT_EVTGRP_ERROR_BIT ≠ 0 →
      mqtt_start_outcome bits = (MQTT_ERROR_TYPE_NONE, false, .errorBranch)) := by
  refine ⟨?_, ?_, ?_⟩ <;> intros <;> simp [mqtt_start_outcome, *]

/-- Witness for the fixed-priority theorem at bits 7: all three bits set,
the connected branch still wins. -/
theorem mqtt_start_outcome_fixed_priority_witness :
    (7 : Nat) &&& MQTT_EVTGRP_CONNECTED_BIT ≠ 0 ∧
    mqtt_start_outcome 7 = (ESP_OK, true, .connectedBranch) :=
  ⟨by decide, (mqtt_start_outcome_fixed_priority 7).1 (by decide)⟩

/-- C2 failing input: when the wait returns with only the error bit set,
the error branch runs and mqtt_connected is set false, but the returned
value MQTT_ERROR_TYPE_NONE is numerically 0, the very value of ESP_OK, so
the caller cannot distinguish this error outcome from success; a full
mqtt_start run whose only delivered event is MQTT_EVENT_ERROR therefore
returns ESP_OK. -/
theorem mqtt_start_error_branch_returns_success_value :
    mqtt_start_outcome MQTT_EVTGRP_ERROR_BIT =
      (MQTT_ERROR_TYPE_NONE, false, .errorBranch) ∧
    MQTT_ERROR_TYPE_NONE = ESP_OK ∧
    mqtt_start ⟨true, true, ESP_OK, ESP_OK, [.error]⟩ ⟨none, false, false⟩ =
      some (ESP_OK, ⟨some 4, false, true⟩) := by
  decide

/-- C3 counterexample: after mqtt_start has returned with the connected
outcome (state: latch word 1, mqtt_connected true, client handle live),
delivering a disconnected event through the callback updates the latch
word to 2 but leaves mqtt_connected true, contrary to the claim that the
callback flips it to false; moreover mqtt_start itself (not the callback)
is what mutated mqtt_connected from false to true in that run. -/
theorem mqtt_connected_mutation_cex :
    mqtt_start ⟨true, true, ESP_OK, ESP_OK, [.connected]⟩ ⟨none, false, false⟩ =
      some (ESP_OK, ⟨some 1, true, true⟩) ∧
    (mqtt_event_handler_step ⟨some 1, true, true⟩ .disconnected).s_mqtt_evtgrp_hdl =
      some 2 ∧
    (mqtt_event_handler_step ⟨some 1, true, true⟩ .disconnected).mqtt_connected = true := by
  decide

/-- C3 amended: the event callback mutates only the latch word; it leaves
the mqtt_connected flag and the client handle untouched for every state
and every event, so a disconnected event delivered after mqtt_start has
returned updates the latch bits but never the connected flag, which is
mutated only by the post-wait branch of mqtt_start. -/
theorem mqtt_event_handler_step_frame (st : ConnState) (e : MqttEventId) :
    (mqtt_event_handler_step st e).mqtt_connected = st.mqtt_connected ∧
    (mqtt_event_handler_step st e).mqtt_client_hdl = st.mqtt_client_hdl :=
  ⟨rfl, rfl⟩

/-- C10: with clear-on-exit false and wait-for-all false, as in the
source call, the wait unblocks for any latch word with at least one of
the three outcome bits set, returns exactly that word, and leaves the
latch word unchanged. -/
theorem xEventGroupWaitBits_no_clear_wait_any (grp : Nat)
    (h : grp &&& (MQTT_EVTGRP_CONNECTED_BIT ||| MQTT_EVTGRP_DISCONNECTED_BIT |||
      MQTT_EVTGRP_ERROR_BIT) ≠ 0) :
    xEventGroupWaitBits grp
      (MQTT_EVTGRP_CONNECTED_BIT ||| MQTT_EVTGRP_DISCONNECTED_BIT |||
        MQTT_EVTGRP_ERROR_BIT) false false = some (grp, grp) :=
  xEventGroupWaitBits_ready grp _ h

/-- Witness for the no-clear wait theorem at latch word 5. -/
theorem xEventGroupWaitBits_no_clear_wait_any_witness :
    (5 : Nat) &&& (MQTT_EVTGRP_CONNECTED_BIT ||| MQTT_EVTGRP_DISCONNECTED_BIT |||
      MQTT_EVTGRP_ERROR_BIT) ≠ 0 ∧
    xEventGroupWaitBits 5
      (MQTT_EVTGRP_CONNECTED_BIT ||| MQTT_EVTGRP_DISCONNECTED_BIT |||
        MQTT_EVTGRP_ERROR_BIT) false false = some (5, 5) :=
  ⟨by decide, xEventGroupWaitBits_no_clear_wait_any 5 (by decide)⟩

lemma latchMatches_not_both :
    ∀ (acc : Option MqttEventId), ∀ b < 8, latchMatches acc b = true →
      ¬(b &&& MQTT_EVTGRP_CONNECTED_BIT ≠ 0 ∧ b &&& MQTT_EVTGRP_DISCONNECTED_BIT ≠ 0) := by
  decide

lemma latchMatches_connected_bits :
    ∀ b < 8, latchMatches (some .connected) b = true →
      b &&& MQTT_EVTGRP_CONNECTED_BIT = MQTT_EVTGRP_CONNECTED_BIT ∧
      b &&& MQTT_EVTGRP_DISCONNECTED_BIT = 0 := by
  decide

lemma latchMatches_disconnected_bits :
    ∀ b < 8, latchMatches (some .disconnected) b = true →
      b &&& MQTT_EVTGRP_DISCONNECTED_BIT = MQTT_EVTGRP_DISCONNECTED_BIT ∧
      b &&& MQTT_EVTGRP_CONNECTED_BIT = 0 := by
  decide

lemma mqtt_event_handler_idem_lt_8 :
    ∀ b < 8, ∀ e : MqttEventId,
      mqtt_event_handler (mqtt_event_handler b e) e = mqtt_event_handler b e := by
  decide

/-- C5: over every sequence of callback invocations on a fresh latch, at
most one of the connected/disconnected bits is set, and it is the one
matching the most recent connect/disconnect-class event; moreover, on any
reachable latch word, handling a connected event sets the connected bit
and clears the disconnected bit and handling a disconnected event does
the converse, so after a connected event followed later by a disconnected
event only the disconnected bit of the pair is set. -/
theorem mqtt_event_handler_latch_exclusive (l : List MqttEventId) :
    (¬((l.foldl mqtt_event_handler 0) &&& MQTT_EVTGRP_CONNECTED_BIT ≠ 0 ∧
       (l.foldl mqtt_event_handler 0) &&& MQTT_EVTGRP_DISCONNECTED_BIT ≠ 0)) ∧
    (lastConnDisc l = some .connected →
      (l.foldl mqtt_event_handler 0) &&& MQTT_EVTGRP_CONNECTED_BIT =
        MQTT_EVTGRP_CONNECTED_BIT ∧
      (l.foldl mqtt_event_handler 0) &&& MQTT_EVTGRP_DISCONNECTED_BIT = 0) ∧
    (lastConnDisc l = some .disconnected →
      (l.foldl mqtt_event_handler 0) &&& MQTT_EVTGRP_DISCONNECTED_BIT =
        MQTT_EVTGRP_DISCONNECTED_BIT ∧
      (l.foldl mqtt_event_handler 0) &&& MQTT_EVTGRP_CONNECTED_BIT = 0) ∧
    (∀ b < 8,
      (mqtt_event_handler b .connected) &&& MQTT_EVTGRP_CONNECTED_BIT =
        MQTT_EVTGRP_CONNECTED_BIT ∧
      (mqtt_event_handler b .connected) &&& MQTT_EVTGRP_DISCONNECTED_BIT = 0 ∧
      (mqtt_event_handler b .disconnected) &&& MQTT_EVTGRP_DISCONNECTED_BIT =
        MQTT_EVTGRP_DISCONNECTED_BIT ∧
      (mqtt_event_handler b .disconnected) &&& MQTT_EVTGRP_CONNECTED_BIT = 0) := by
  have hlt : l.foldl mqtt_event_handler 0 < 8 :=
    foldl_mqtt_event_handler_lt_8 l 0 (by decide)
  have hm := lastConnDisc_latchMatches l
  refine ⟨latchMatches_not_both _ _ hlt hm, ?_, ?_, by decide⟩
  · intro h
    rw [h] at hm
    exact latchMatches_connected_bits _ hlt hm
  · intro h
    rw [h] at hm
    exact latchMatches_disconnected_bits _ hlt hm

/-- Witness for the latch-exclusivity theorem on the sequence connected
then disconnected: only the disconnected bit of the pair survives. -/
theorem mqtt_event_handler_latch_exclusive_witness :
    lastConnDisc [MqttEventId.connected, MqttEventId.disconnected] = some .disconnected ∧
    ([MqttEventId.connected, MqttEventId.disconnected].foldl mqtt_event_handler 0) &&&
      MQTT_EVTGRP_DISCONNECTED_BIT = MQTT_EVTGRP_DISCONNECTED_BIT ∧
    ([MqttEventId.connected, MqttEventId.disconnected].foldl mqtt_event_handler 0) &&&
      MQTT_EVTGRP_CONNECTED_BIT = 0 :=
  ⟨by decide,
    (mqtt_event_handler_latch_exclusive
      [MqttEventId.connected, MqttEventId.disconnected]).2.2.1 (by decide)⟩

lemma foldl_duplicate_event (pre post : List MqttEventId) (e : MqttEventId) :
    (pre ++ e :: e :: post).foldl mqtt_event_handler 0 =
      (pre ++ e :: post).foldl mqtt_event_handler 0 := by
  rw [List.foldl_append, List.foldl_append, List.foldl_cons, List.foldl_cons,
    List.foldl_cons,
    mqtt_event_handler_idem_lt_8 _ (foldl_mqtt_event_handler_lt_8 pre 0 (by decide)) e]

/-- C7: the callback is idempotent on the latch for every event kind —
on any reachable latch word, delivering the same event twice in a row
leaves the latch exactly as delivering it once — and consequently the
result of an mqtt_start call (both the single wait it performs and what
that wait yields) is unchanged when any delivered event is duplicated. -/
theorem mqtt_event_handler_idempotent :
    (∀ (l : List MqttEventId) (e : MqttEventId),
      mqtt_event_handler (mqtt_event_handler (l.foldl mqtt_event_handler 0) e) e =
        mqtt_event_handler (l.foldl mqtt_event_handler 0) e) ∧
    (∀ (env : StartEnv) (st : ConnState) (pre post : List MqttEventId) (e : MqttEventId),
      mqtt_start { env with events := pre ++ e :: e :: post } st =
        mqtt_start { env with events := pre ++ e :: post } st) := by
  constructor
  · intro l e
    exact mqtt_event_handler_idem_lt_8 _ (foldl_mqtt_event_handler_lt_8 l 0 (by decide)) e
  · intro env st pre post e
    simp only [mqtt_start, foldl_duplicate_event]

/-- C4: for every sequence of callback invocations delivered before the
latch wait is observed, if a connected event was the last
connect/disconnect-class event of the sequence, then a setup-successful
mqtt_start returns ESP_OK with mqtt_connected true (and the latch word is
exactly what the callbacks left). -/
theorem mqtt_start_connected_last (env : StartEnv) (st : ConnState)
    (h1 : env.evtgrp_create_ok = true) (h2 : env.client_init_ok = true)
    (h3 : env.register_event_ret = ESP_OK) (h4 : env.client_start_ret = ESP_OK)
    (h5 : lastConnDisc env.events = some .connected) :
    mqtt_start env st =
      some (ESP_OK, ⟨some (env.events.foldl mqtt_event_handler 0), true, true⟩) := by
  have hlt : env.events.foldl mqtt_event_handler 0 < 8 :=
    foldl_mqtt_event_handler_lt_8 env.events 0 (by decide)
  have hm := lastConnDisc_latchMatches env.events
  rw [h5] at hm
  have hbit := (latchMatches_connected_bits _ hlt hm).1
  have hready := land_one_ready _ hlt hbit
  simp only [mqtt_start, h1, h2, h3, h4, Bool.not_true, not_true_eq_false,
    if_false, ne_eq, not_true_eq_false, ite_false, not_false_eq_true, ite_true,
    xEventGroupWaitBits_ready _ _ hready]
  have hmod : List.foldl mqtt_event_handler 0 env.events % 2 = 1 := by
    simpa [MQTT_EVTGRP_CONNECTED_BIT, Nat.and_one_is_mod] using hbit
  simp [mqtt_start_outcome, MQTT_EVTGRP_CONNECTED_BIT, Nat.and_one_is_mod, hmod]

/-- Witness for the connected-last theorem: an error event followed by a
connected event still yields success with the flag true. -/
theorem mqtt_start_connected_last_witness :
    mqtt_start ⟨true, true, ESP_OK, ESP_OK, [.error, .connected]⟩ ⟨none, false, false⟩ =
      some (ESP_OK,
        ⟨some ([MqttEventId.error, MqttEventId.connected].foldl mqtt_event_handler 0),
          true, true⟩) :=
  mqtt_start_connected_last _ _ rfl rfl rfl rfl (by decide)

lemma outcome_no_fallthrough : ∀ b < 8,
    b &&& (MQTT_EVTGRP_CONNECTED_BIT ||| MQTT_EVTGRP_DISCONNECTED_BIT |||
      MQTT_EVTGRP_ERROR_BIT) ≠ 0 →
    (mqtt_start_outcome b).2.2 ≠ StartBranch.fallthroughBranch ∧
    (mqtt_start_outcome b).1 ≠ ESP_ERR_NOT_SUPPORTED := by decide

lemma xEventGroupWaitBits_blocked (grp waitBits : Nat) (h : grp &&& waitBits = 0) :
    xEventGroupWaitBits grp waitBits false false = none := by
  simp [xEventGroupWaitBits, h]

/-- C9: the indefinite wait can only return with at least one of the
waited bits among the returned bits, and therefore, in any mqtt_start run
that gets past the setup calls and actually returns, the final else
branch of the if chain (returning ESP_ERR_NOT_SUPPORTED) is unreachable:
the executed branch is never the fallthrough one and the returned value
is never ESP_ERR_NOT_SUPPORTED. -/
theorem mqtt_start_fallthrough_unreachable :
    (∀ grp bits grp2,
      xEventGroupWaitBits grp
          (MQTT_EVTGRP_CONNECTED_BIT ||| MQTT_EVTGRP_DISCONNECTED_BIT |||
            MQTT_EVTGRP_ERROR_BIT) false false = some (bits, grp2) →
      bits &&& (MQTT_EVTGRP_CONNECTED_BIT ||| MQTT_EVTGRP_DISCONNECTED_BIT |||
        MQTT_EVTGRP_ERROR_BIT) ≠ 0) ∧
    (∀ (env : StartEnv) (st : ConnState) (r : Int) (st' : ConnState),
      env.evtgrp_create_ok = true → env.client_init_ok = true →
      env.register_event_ret = ESP_OK → env.client_start_ret = ESP_OK →
      mqtt_start env st = some (r, st') →
      (mqtt_start_outcome (env.events.foldl mqtt_event_handler 0)).2.2 ≠
        StartBranch.fallthroughBranch ∧
      r ≠ ESP_ERR_NOT_SUPPORTED) := by
  constructor
  · intro grp bits grp2 h
    by_cases hc : grp &&& (MQTT_EVTGRP_CONNECTED_BIT ||| MQTT_EVTGRP_DISCONNECTED_BIT |||
        MQTT_EVTGRP_ERROR_BIT) = 0
    · rw [xEventGroupWaitBits_blocked _ _ hc] at h
      cases h
    · rw [xEventGroupWaitBits_ready _ _ hc] at h
      simp only [Option.some.injEq, Prod.mk.injEq] at h
      rw [← h.1]
      exact hc
  · intro env st r st' h1 h2 h3 h4 h
    have hlt : env.events.foldl mqtt_event_handler 0 < 8 :=
      foldl_mqtt_event_handler_lt_8 env.events 0 (by decide)
    by_cases hc : (env.events.foldl mqtt_event_handler 0) &&&
        (MQTT_EVTGRP_CONNECTED_BIT ||| MQTT_EVTGRP_DISCONNECTED_BIT |||
          MQTT_EVTGRP_ERROR_BIT) = 0
    · simp only [mqtt_start, h1, h2, h3, h4, xEventGroupWaitBits_blocked _ _ hc] at h
      simp at h
    · have hout := outcome_no_fallthrough _ hlt hc
      refine ⟨hout.1, ?_⟩
      simp only [mqtt_start, h1, h2, h3, h4, xEventGroupWaitBits_ready _ _ hc] at h
      simp only [Bool.true_eq_false, not_true_eq_false, if_false, ite_false,
        not_false_eq_true, ite_true, Option.some.injEq, Prod.mk.injEq] at h
      simp at h
      rw [← h.1]
      exact hout.2

/-- Witness for the fallthrough-unreachability theorem on a run whose
only event is an error event. -/
theorem mqtt_start_fallthrough_unreachable_witness :
    (mqtt_start_outcome ([MqttEventId.error].foldl mqtt_event_handler 0)).2.2 ≠
      StartBranch.fallthroughBranch :=
  (mqtt_start_fallthrough_unreachable.2 ⟨true, true, ESP_OK, ESP_OK, [.error]⟩
    ⟨none, false, false⟩ ESP_OK ⟨some 4, false, true⟩ rfl rfl rfl rfl (by decide)).1

/-- C6 counterexample: when client initialization fails after the event
group was created, mqtt_start returns the ESP_ERR_INVALID_STATE error yet
leaves the event-group handle non-null (the latch is leaked), refuting
the claim that after an error return both references are null. -/
theorem latch_handle_lifecycle_cex :
    mqtt_start ⟨true, false, ESP_OK, ESP_OK, []⟩ ⟨none, false, false⟩ =
      some (ESP_ERR_INVALID_STATE, ⟨some 0, false, false⟩) ∧
    ESP_ERR_INVALID_STATE ≠ ESP_OK ∧
    (some 0 : Option Nat) ≠ none := by
  decide

/-- C6 amended: starting from null handles, the latch handle after any
return of mqtt_start is non-null exactly when event-group creation
succeeded — so every error return after latch creation (client init,
registration, client-start failure, or a disconnected/error outcome)
leaks a non-null latch — while the client handle is non-null exactly when
both creation steps succeeded; a fully successful mqtt_stop nulls both
handles. -/
theorem latch_handle_lifecycle_amended :
    (∀ (env : StartEnv) (st : ConnState) (r : Int) (st' : ConnState),
      st.mqtt_client_hdl = false →
      mqtt_start env st = some (r, st') →
      (st'.s_mqtt_evtgrp_hdl ≠ none ↔ env.evtgrp_create_ok = true) ∧
      st'.mqtt_client_hdl = (env.evtgrp_create_ok && env.client_init_ok)) ∧
    (∀ (env2 : StopEnv) (st2 : ConnState),
      env2.disconnect_ret = ESP_OK → env2.stop_ret = ESP_OK →
      env2.unregister_event_ret = ESP_OK →
      (mqtt_stop env2 st2).2.s_mqtt_evtgrp_hdl = none ∧
      (mqtt_stop env2 st2).2.mqtt_client_hdl = false) := by
  constructor
  · intro env st r st' hcl h
    cases h1 : env.evtgrp_create_ok with
    | false =>
        simp only [mqtt_start, h1] at h
        simp at h
        obtain ⟨-, hst⟩ := h
        subst hst
        simp [h1, hcl]
    | true =>
        cases h2 : env.client_init_ok with
        | false =>
            simp only [mqtt_start, h1, h2] at h
            simp at h
            obtain ⟨-, hst⟩ := h
            subst hst
            simp [h1, h2]
        | true =>
            by_cases h3 : env.register_event_ret = ESP_OK
            · by_cases h4 : env.client_start_ret = ESP_OK
              · by_cases hc : (env.events.foldl mqtt_event_handler 0) &&&
                    (MQTT_EVTGRP_CONNECTED_BIT ||| MQTT_EVTGRP_DISCONNECTED_BIT |||
                      MQTT_EVTGRP_ERROR_BIT) = 0
                · simp only [mqtt_start, h1, h2, h3, h4,
                    xEventGroupWaitBits_blocked _ _ hc] at h
                  simp at h
                · simp only [mqtt_start, h1, h2, h3, h4,
                    xEventGroupWaitBits_ready _ _ hc] at h
                  simp at h
                  obtain ⟨-, hst⟩ := h
                  subst hst
                  simp [h1, h2]
              · simp only [mqtt_start, h1, h2, h3, h4] at h
                simp [h4] at h
                obtain ⟨-, hst⟩ := h
                subst hst
                simp [h1, h2]
            · simp only [mqtt_start, h1, h2, h3] at h
              simp [h3] at h
              obtain ⟨-, hst⟩ := h
              subst hst
              simp [h1, h2]
  · intro env2 st2 g1 g2 g3
    simp [mqtt_stop, g1, g2, g3]

/-- Witness for the amended lifecycle theorem on a run that ends in the
disconnected outcome: the error return value 2 comes with a live latch
and a live client handle. -/
theorem latch_handle_lifecycle_amended_witness :
    ((⟨some 2, false, true⟩ : ConnState).s_mqtt_evtgrp_hdl ≠ none ↔ (true : Bool) = true) ∧
    (⟨some 2, false, true⟩ : ConnState).mqtt_client_hdl = (true && true) :=
  latch_handle_lifecycle_amended.1 ⟨true, true, ESP_OK, ESP_OK, [.disconnected]⟩
    ⟨none, false, false⟩ MQTT_ERROR_TYPE_CONNECTION_REFUSED ⟨some 2, false, true⟩
    rfl (by decide)

/-- C8: mqtt_stop tries disconnect, stop, unregister in that fixed order;
the first failure is returned at once and the state (both handles) is
left untouched, and when all three succeed the call destroys the client,
frees the latch, nulls both handles and returns ESP_OK. -/
theorem mqtt_stop_teardown (env : StopEnv) (st : ConnState) :
    (env.disconnect_ret ≠ ESP_OK → mqtt_stop env st = (env.disconnect_ret, st)) ∧
    (env.disconnect_ret = ESP_OK → env.stop_ret ≠ ESP_OK →
      mqtt_stop env st = (env.stop_ret, st)) ∧
    (env.disconnect_ret = ESP_OK → env.stop_ret = ESP_OK →
      env.unregister_event_ret ≠ ESP_OK →
      mqtt_stop env st = (env.unregister_event_ret, st)) ∧
    (env.disconnect_ret = ESP_OK → env.stop_ret = ESP_OK →
      env.unregister_event_ret = ESP_OK →
      mqtt_stop env st = (ESP_OK, ⟨none, st.mqtt_connected, false⟩)) := by
  refine ⟨?_, ?_, ?_, ?_⟩ <;> intros <;> simp [mqtt_stop, *]

/-- Witness for the teardown theorem: a failing disconnect is propagated
with the handles untouched, and an all-successful teardown nulls both
handles. -/
theorem mqtt_stop_teardown_witness :
    mqtt_stop ⟨ESP_ERR_INVALID_STATE, ESP_OK, ESP_OK⟩ ⟨some 1, true, true⟩ =
      (ESP_ERR_INVALID_STATE, ⟨some 1, true, true⟩) ∧
    mqtt_stop ⟨ESP_OK, ESP_OK, ESP_OK⟩ ⟨some 1, true, true⟩ =
      (ESP_OK, ⟨none, true, false⟩) :=
  ⟨(mqtt_stop_teardown ⟨ESP_ERR_INVALID_STATE, ESP_OK, ESP_OK⟩ ⟨some 1, true, true⟩).1
      (by decide),
    (mqtt_stop_teardown ⟨ESP_OK, ESP_OK, ESP_OK⟩ ⟨some 1, true, true⟩).2.2.2
      rfl rfl rfl⟩

